import Mathlib

/-!
Shallow embedding of the experiment scripts of the
`epidemic-transfer-learning` repository, and proofs about them.

Modelled modules:
* `src/gtl/training/__init__.py` — the `train` dispatch function;
* `scripts/clustered_experiment.py` — dataset loading, the run sweep in
  `main`, the evaluation pipeline of `_do_run`, and `_get_edge_embedding`;
* `scripts/experiments/sweep_airport.py` and
  `scripts/experiments/to-port/sweep_triangle_detection.py` — argument
  parsing, sweep configuration and the averaged sweep metrics.

Tensors are modelled as lists of rationals, node-embedding matrices as
functions from node ids to vectors, and the external services (wandb,
sklearn, the DGL negative sampler, the filesystem) as explicit oracles
passed in as parameters, so that every data-flow fact of the scripts is
stated over executable definitions.
-/

namespace GTLSpec

/-! ## `gtl.training.__init__` : the `train` dispatch (`_model_functions`, `train`) -/

/-- Which underlying trainer a model name dispatches to.
`_egi.train_egi_encoder` and `_graphsage.train_graphsage_encoder` live in
modules outside the provided sources, so a call to them is represented by
which function is called and with which bound `sampler_type` argument
(the `functools.partial` application in `_model_functions`). -/
inductive TrainerCall where
  | graphsage_encoder : TrainerCall
  | egi_encoder (sampler_type : String) : TrainerCall
deriving DecidableEq, Repr

/-- The `_model_functions` dict of `gtl/training/__init__.py`, as an
association list from model name to trainer. -/
def model_functions : List (String × TrainerCall) :=
  [("graphsage", TrainerCall.graphsage_encoder),
   ("egi", TrainerCall.egi_encoder "egi"),
   ("triangle", TrainerCall.egi_encoder "triangle")]

/-- Errors raised by `gtl.training.train`. -/
inductive TrainError where
  | valueError (msg : String) : TrainError
deriving DecidableEq, Repr

/-- The function `gtl.training.train(model, graph, **kwargs)`: look the model name up in
`_model_functions`; raise `ValueError` when absent, otherwise call the
trainer found.  The result records which trainer is invoked. -/
def train (model : String) : Except TrainError TrainerCall :=
  match model_functions.lookup model with
  | none => Except.error (TrainError.valueError ("No such model: " ++ model))
  | some f => Except.ok f

/-! ## `scripts/clustered_experiment.py` : constants and dataset loading -/

def BATCHSIZE : Nat := 50
def HIDDEN_LAYERS : Nat := 32
def PATIENCE : Nat := 10
def EPOCHS : Nat := 100
def K : Nat := 3
def N_RUNS : Nat := 5

def GRAPH_TYPES : List String := ["scalefree", "poisson"]
def MODELS : List String := ["egi", "triangle"]

/-- A DGL graph, reduced to what the script consumes: its (directed) edge
list as produced by `g.edges()`. -/
structure DGLGraph where
  edges : List (Nat × Nat)
deriving DecidableEq, Repr

/-- The call `dgl.from_networkx`: build a DGL graph from the edge list read by
networkx. -/
def from_networkx (es : List (Nat × Nat)) : DGLGraph := ⟨es⟩

/-- The method `g.num_edges()`. -/
def DGLGraph.num_edges (g : DGLGraph) : Nat := g.edges.length

/-- The filesystem, as the script observes it: whether a path is a file,
and the edge list `nx.read_edgelist` parses from it when it is. -/
structure FS where
  is_file : String → Bool
  read_edgelist : String → List (Nat × Nat)

/-- Outcome of `_load_edgelist`: either the process exits (with a status
and the printed message), or a graph is returned. -/
inductive LoadResult where
  | exited (status : Nat) (msg : String) : LoadResult
  | loaded (g : DGLGraph) : LoadResult
deriving DecidableEq, Repr

/-- The function `_load_edgelist(path)`: exit with status 1 after printing a message
naming the path when the path is not a file; otherwise return the DGL
graph built from the networkx graph read from the file. -/
def load_edgelist (fs : FS) (path : String) : LoadResult :=
  if fs.is_file path = false then
    LoadResult.exited 1
      ("File " ++ path ++ " does not exist - generate the dataset before running this script!")
  else
    LoadResult.loaded (from_networkx (fs.read_edgelist path))

/-- The `GRAPHS` dictionary: graph type → clustering → role → edgelist
file stem under `data/generated/clustered/`.  Returns `none` for keys not
in the dict (Python would raise `KeyError`). -/
def GRAPHS (graph_type clustering role : String) : Option String :=
  match graph_type, clustering, role with
  | "scalefree", "clustered", "src" => some "powerlaw-clustered-100-0.edgelist"
  | "scalefree", "clustered", "target" => some "powerlaw-clustered-100-1.edgelist"
  | "scalefree", "unclustered", "src" => some "powerlaw-unclustered-100-0.edgelist"
  | "scalefree", "unclustered", "target" => some "powerlaw-unclustered-100-1.edgelist"
  | "poisson", "clustered", "src" => some "poisson-clustered-100-0.edgelist"
  | "poisson", "clustered", "target" => some "poisson-clustered-100-1.edgelist"
  | "poisson", "unclustered", "src" => some "poisson-unclustered-100-0.edgelist"
  | "poisson", "unclustered", "target" => some "poisson-unclustered-100-1.edgelist"
  | _, _, _ => none

/-- The graph `_do_run` trains the encoder on:
`src_g = GRAPHS[graph_type][src]["src"]` (line 109). -/
def do_run_src_graph (graph_type src : String) : Option String :=
  GRAPHS graph_type src "src"

/-- The graph `_do_run` evaluates the transfer score on:
`target_g = GRAPHS[graph_type][src]["target"]` (line 110).  Note the
clustering level of the dict is indexed with `src`; the target parameter
of the run does not occur in the lookup. -/
def do_run_target_graph (graph_type src target : String) : Option String :=
  GRAPHS graph_type src "target"

/-! ## `scripts/clustered_experiment.py` : the sweep in `main` -/

/-- The call `itertools.permutations(l, r=2)`: ordered pairs of elements of `l`
taken at distinct positions, in index order. -/
def permutations2 {α : Type} (l : List α) : List (α × α) :=
  l.enum.flatMap (fun a =>
    l.enum.flatMap (fun b => if a.1 ≠ b.1 then [(a.2, b.2)] else []))

/-- The two clustering settings `main` permutes over. -/
def CLUSTERINGS : List String := ["clustered", "unclustered"]

/-- The list `itertools.product(MODELS, GRAPH_TYPES)` before the shuffle. -/
def trialsProduct : List (String × String) :=
  MODELS.flatMap (fun m => GRAPH_TYPES.map (fun t => (m, t)))

/-- The configuration `main` passes to `wandb.init` and `_do_run` for one
run. -/
structure RunConfig where
  model : String
  graph_type : String
  src : String
  target : String
  run_index : Nat
deriving DecidableEq, Repr

/-- The wandb calls `main` makes, in order: `wandb.init(config)`, the
`_do_run(model, graph_type, src, target)` call, `wandb.finish()`. -/
inductive WandbEvent where
  | init (cfg : RunConfig) : WandbEvent
  | do_run (cfg : RunConfig) : WandbEvent
  | finish : WandbEvent
deriving DecidableEq, Repr

/-- The run configurations produced by the loop nest of `main`, given the
(shuffled) trial list: for each `(model, graph_type)` trial, for each
ordered pair `(src, target)` of distinct clusterings, for each
`i < N_RUNS`, one run. -/
def runsOfTrials (trials : List (String × String)) : List RunConfig :=
  trials.flatMap (fun mt =>
    (permutations2 CLUSTERINGS).flatMap (fun st =>
      (List.range N_RUNS).map (fun i =>
        ⟨mt.1, mt.2, st.1, st.2, i⟩)))

/-- The wandb event trace of `main`, given the (shuffled) trial list:
each run of the loop nest performs `wandb.init`, then `_do_run`, then
`wandb.finish`. -/
def mainEvents (trials : List (String × String)) : List WandbEvent :=
  trials.flatMap (fun mt =>
    (permutations2 CLUSTERINGS).flatMap (fun st =>
      (List.range N_RUNS).flatMap (fun i =>
        [WandbEvent.init ⟨mt.1, mt.2, st.1, st.2, i⟩,
         WandbEvent.do_run ⟨mt.1, mt.2, st.1, st.2, i⟩,
         WandbEvent.finish])))

/-! ## `scripts/clustered_experiment.py` : the evaluation pipeline of `_do_run` -/

/-- Element-wise product of two vectors (`torch` tensor `*`,
`np.multiply`). -/
def vecMul (a b : List ℚ) : List ℚ := List.zipWith (fun x y => x * y) a b

/-- Advanced indexing `t[mask]` for an index tensor `mask`: pick the
entries of `l` at the indices of `p` (out-of-range indices yield the
default, a case the hypotheses of the theorems exclude). -/
def applyPerm {α : Type} (p : List Nat) (l : List α) (d : α) : List α :=
  p.map (fun i => l.getD i d)

/-- The function `_get_edge_embedding(emb, a, b)`: the element-wise product of the two
node embeddings `emb[a]` and `emb[b]`. -/
def get_edge_embedding (emb : Nat → List ℚ) (a b : Nat) : List ℚ :=
  vecMul (emb a) (emb b)

/-- The data one evaluation phase of `_do_run` consumes: the edge
list of the graph, the node-embedding matrix of the encoder, the node pairs returned by
`global_uniform_negative_sampling`, and the two `torch.randperm` draws. -/
structure EvalData where
  g : DGLGraph
  emb : Nat → List ℚ
  neg_us : List Nat
  neg_vs : List Nat
  edge_shuffle : List Nat
  final_shuffle : List Nat

/-- Positive edge embeddings, one per
edge of the graph, endpoints shuffled by `edge_shuffle` then mapped
through the embedding matrix and multiplied element-wise. -/
def positive_edges (d : EvalData) : List (List ℚ) :=
  let us := applyPerm d.edge_shuffle (d.g.edges.map Prod.fst) 0
  let vs := applyPerm d.edge_shuffle (d.g.edges.map Prod.snd) 0
  List.zipWith (fun u v => vecMul (d.emb u) (d.emb v)) us vs

/-- Negative edge embeddings, one per sampled negative pair. -/
def negative_edges (d : EvalData) : List (List ℚ) :=
  List.zipWith (fun u v => vecMul (d.emb u) (d.emb v)) d.neg_us d.neg_vs

/-- The label tensor `values = torch.cat((torch.ones(P), torch.zeros(N)))`: the label
vector before the final shuffle. -/
def assembled_values (d : EvalData) : List ℚ :=
  List.replicate (positive_edges d).length 1 ++
    List.replicate (negative_edges d).length 0

/-- The tensor `edges = torch.cat((positive_edges, negative_edges))` before the final
shuffle. -/
def assembled_edges (d : EvalData) : List (List ℚ) :=
  positive_edges d ++ negative_edges d

/-- The label vector after `values = values[shuffle_mask]`, i.e. the one
handed to `train_test_split`. -/
def shuffled_values (d : EvalData) : List ℚ :=
  applyPerm d.final_shuffle (assembled_values d) 0

/-- The edge-embedding matrix after `edges = edges[shuffle_mask]`. -/
def shuffled_edges (d : EvalData) : List (List ℚ) :=
  applyPerm d.final_shuffle (assembled_edges d) []

/-- The row split `sklearn.model_selection.train_test_split` chooses:
which row indices go to the train part and which to the validation
part. -/
structure SklearnSplit where
  train_idx : List Nat
  val_idx : List Nat

/-- The call `train_test_split(edges, values)`: select the train and validation
rows of both arrays with the index lists of the split. -/
def train_test_split (sp : SklearnSplit) (es : List (List ℚ)) (vals : List ℚ) :
    List (List ℚ) × List (List ℚ) × List ℚ × List ℚ :=
  (applyPerm sp.train_idx es [], applyPerm sp.val_idx es [],
   applyPerm sp.train_idx vals 0, applyPerm sp.val_idx vals 0)

/-- The behaviour of `SGDClassifier(max_iter=1000)` followed by
`.fit(train_edges, train_classes).score(val_edges, val_classes)`, as an
oracle: a function from the four arrays to the accuracy. -/
structure SGDOracle where
  fit_score : List (List ℚ) → List ℚ → List (List ℚ) → List ℚ → ℚ

/-- One evaluation phase of `_do_run` (lines 124-177 for the source graph,
183-232 for the target graph): assemble the shuffled edge-embedding
dataset, split it, fit the classifier on the train part and score it on
the validation part. -/
def evaluate_phase (o : SGDOracle) (sp : SklearnSplit) (d : EvalData) : ℚ :=
  let parts := train_test_split sp (shuffled_edges d) (shuffled_values d)
  o.fit_score parts.1 parts.2.2.1 parts.2.1 parts.2.2.2

/-- The statement `wandb.summary[k] = v`: append a write to the run summary. -/
def summary_write (s : List (String × ℚ)) (k : String) (v : ℚ) :
    List (String × ℚ) :=
  s ++ [(k, v)]

/-- The summary writes `_do_run` performs, in order: it evaluates the
dataset of the source graph and writes the score to `"source-accuracy"`
(line 177), then evaluates the dataset of the target graph and writes the
score to `"target-accuracy"` (line 232). -/
def do_run_summary (o : SGDOracle) (sp_src sp_target : SklearnSplit)
    (src_eval target_eval : EvalData) : List (String × ℚ) :=
  let s1 := summary_write [] "source-accuracy" (evaluate_phase o sp_src src_eval)
  summary_write s1 "target-accuracy" (evaluate_phase o sp_target target_eval)

/-! ## Sweep scripts: `sweep_airport.py` and `sweep_triangle_detection.py` -/

/-- A wandb sweep configuration, reduced to the parts the scripts touch:
the optional `"name"` entry (absent in both initial configs) and the keys
of the `"parameters"` dict. -/
structure SweepConfig where
  name : Option String
  parameters : List String
deriving DecidableEq, Repr

/-- The initial `sweep_config` of `sweep_airport.py` (no `"name"` entry;
`"model"` not among the parameters). -/
def sweep_config_airport : SweepConfig :=
  ⟨none, ["n_runs", "batch_size", "hidden_layers", "lr", "k",
          "patience", "min_delta", "epochs"]⟩

/-- The initial `sweep_config` of `sweep_triangle_detection.py` (no
`"name"` entry; `"model"` not among the parameters). -/
def sweep_config_triangle : SweepConfig :=
  ⟨none, ["batch_size", "hidden_layers", "lr", "k", "sweep_n_runs",
          "source_core_size", "target_core_size", "source_periphery_size",
          "target_periphery_size", "patience", "min_delta", "epochs"]⟩

/-- The sweep-related wandb calls of the two main functions. -/
inductive SweepAction where
  | create_sweep (cfg : SweepConfig) : SweepAction
  | attach_agent (sweep_id : String) : SweepAction
deriving DecidableEq, Repr

/-- The set of values `argparse` accepts for the positional `model`
argument in both sweep scripts: `choices=["egi", "triangle", "graphsage"]`. -/
def model_choices : List String := ["egi", "triangle", "graphsage"]

/-- The argparse choices check for the positional model argument: any
value outside `choices` makes parsing fail (argparse prints an error and
exits before `main` continues). -/
def parse_model_arg (m : String) : Except String String :=
  if m ∈ model_choices then Except.ok m
  else Except.error ("argument model: invalid choice: " ++ m)

/-- The `"name"`/`"model"` update both scripts apply to their
`sweep_config` before registering a new sweep:
`sweep_config.update({"name": f"{model} ({current_date_time})"})` and
`sweep_config["parameters"].update({"model": {"value": model}})`. -/
def add_model_to_config (cfg : SweepConfig) (model date : String) : SweepConfig :=
  ⟨some (model ++ " (" ++ date ++ ")"), cfg.parameters ++ ["model"]⟩

/-- The function `sweep_airport.main()`: parse the model argument; on success, update
the sweep config, register a new sweep (`wandb.sweep`, whose returned id
the oracle `ws` supplies) and attach an agent to it.  On a parse failure
no sweep action happens. -/
def sweep_airport_main (ws : SweepConfig → String) (date : String)
    (model_arg : String) : Except String (SweepConfig × List SweepAction) :=
  match parse_model_arg model_arg with
  | Except.error e => Except.error e
  | Except.ok model =>
      let cfg := add_model_to_config sweep_config_airport model date
      let sid := ws cfg
      Except.ok (cfg, [SweepAction.create_sweep cfg, SweepAction.attach_agent sid])

/-- The function `sweep_triangle_detection.main()`: parse the model argument and the
optional `--sweep-id`; when a sweep id is supplied, leave `sweep_config`
alone and attach the agent to it; otherwise update the config, register a
new sweep and attach the agent to the fresh id. -/
def sweep_triangle_main (ws : SweepConfig → String) (date : String)
    (model_arg : String) (sweep_id : Option String) :
    Except String (SweepConfig × List SweepAction) :=
  match parse_model_arg model_arg with
  | Except.error e => Except.error e
  | Except.ok model =>
      match sweep_id with
      | some sid =>
          Except.ok (sweep_config_triangle, [SweepAction.attach_agent sid])
      | none =>
          let cfg := add_model_to_config sweep_config_triangle model date
          let sid := ws cfg
          Except.ok (cfg, [SweepAction.create_sweep cfg, SweepAction.attach_agent sid])

/-! ## Sweep scripts: the averaged metrics (`train`, `sweep_runner`) -/

/-- The `results` list built by `sweep_airport.train`: one
`wandb.summary["target-classifier-accuracy"]` value appended per run of
the `range(n_runs)` loop; `acc i` is the summary value after run `i`. -/
def airport_results (n : Nat) (acc : Nat → ℚ) : List ℚ :=
  (List.range n).map acc

/-- The average `sum(results) / len(results)`, the value `sweep_airport.train` logs as
`"avg_classification_accuracy"`. -/
def avg_classification_accuracy (n : Nat) (acc : Nat → ℚ) : ℚ :=
  (airport_results n acc).sum / (airport_results n acc).length

/-- The running accumulator of `sweep_triangle_detection.sweep_runner`:
`acc = 0`, then `acc += wandb.summary["target-accuracy"]` once per run of
the `range(sweep_n_runs)` loop. -/
def triangle_accumulator (n : Nat) (acc : Nat → ℚ) : ℚ :=
  (List.range n).foldl (fun a i => a + acc i) 0

/-- The average `acc / wandb.config.sweep_n_runs`, the value `sweep_runner` logs as
`"avg_target_accuracy"`. -/
def avg_target_accuracy (n : Nat) (acc : Nat → ℚ) : ℚ :=
  triangle_accumulator n acc / n

/-! ## Concrete instances used to exercise the definitions -/

/-- An evaluation phase with the endpoints of every positive edge of the
graph swapped. -/
def swap_endpoints (d : EvalData) : EvalData :=
  { d with g := ⟨d.g.edges.map Prod.swap⟩ }

/-- An evaluation phase with the two halves of the negative sample
swapped. -/
def swap_negatives (d : EvalData) : EvalData :=
  { d with neg_us := d.neg_vs, neg_vs := d.neg_us }

/-- A small concrete filesystem: one edge-list file exists. -/
def fs_example : FS :=
  ⟨fun p => p == "graph.edgelist", fun _ => [(0, 1), (1, 2)]⟩

/-- A small concrete evaluation phase: a one-edge graph, a one-dimensional
embedding, one sampled negative pair, and identity/transposition shuffle
draws. -/
def c8_example : EvalData :=
  ⟨⟨[(0, 1)]⟩, fun _ => [1], [0], [1], [0], [1, 0]⟩

/-! ## Helper lemmas -/

lemma foldl_add_eq_sum (acc : Nat → ℚ) (l : List Nat) (a : ℚ) :
    l.foldl (fun s i => s + acc i) a = a + (l.map acc).sum := by
  induction l generalizing a with
  | nil => simp
  | cons x xs ih => simp [List.foldl_cons, ih, add_assoc]

lemma map_getD_range {A : Type} (l : List A) (d : A) :
    (List.range l.length).map (fun i => l.getD i d) = l := by
  apply List.ext_getElem
  · simp
  · intro n h1 h2
    simp [List.getD, List.getElem?_eq_getElem h2]

lemma applyPerm_perm {A : Type} (p : List Nat) (l : List A) (d : A)
    (h : p.Perm (List.range l.length)) : (applyPerm p l d).Perm l := by
  have h2 := h.map (fun i => l.getD i d)
  rw [map_getD_range] at h2
  exact h2

lemma vecMul_comm (a b : List ℚ) : vecMul a b = vecMul b a :=
  List.zipWith_comm_of_comm _ mul_comm a b

lemma perms2_clusterings : permutations2 CLUSTERINGS =
    [("clustered", "unclustered"), ("unclustered", "clustered")] := rfl

lemma mem_perms2 (st : String × String) :
    st ∈ permutations2 CLUSTERINGS ↔
      st.1 ∈ CLUSTERINGS ∧ st.2 ∈ CLUSTERINGS ∧ st.1 ≠ st.2 := by
  obtain ⟨a, b⟩ := st
  rw [perms2_clusterings]
  constructor
  · intro h
    fin_cases h <;> exact ⟨by decide, by decide, by decide⟩
  · rintro ⟨h1, h2, hne⟩
    fin_cases h1 <;> fin_cases h2 <;> simp_all

lemma mem_trialsProduct (mt : String × String) :
    mt ∈ trialsProduct ↔ mt.1 ∈ MODELS ∧ mt.2 ∈ GRAPH_TYPES := by
  obtain ⟨m, t⟩ := mt
  constructor
  · intro h
    fin_cases h <;> exact ⟨by decide, by decide⟩
  · rintro ⟨h1, h2⟩
    fin_cases h1 <;> fin_cases h2 <;> decide

lemma mem_runsOfTrials (trials : List (String × String)) (c : RunConfig) :
    c ∈ runsOfTrials trials ↔
      ∃ mt ∈ trials, ∃ st ∈ permutations2 CLUSTERINGS, ∃ i < N_RUNS,
        c = ⟨mt.1, mt.2, st.1, st.2, i⟩ := by
  simp only [runsOfTrials, List.mem_flatMap, List.mem_map, List.mem_range]
  constructor
  · rintro ⟨mt, hmt, st, hst, i, hi, rfl⟩
    exact ⟨mt, hmt, st, hst, i, hi, rfl⟩
  · rintro ⟨mt, hmt, st, hst, i, hi, rfl⟩
    exact ⟨mt, hmt, st, hst, i, hi, rfl⟩

/-! ## Claim theorems -/

/-- C1: refuted by the code as written.  For the run configured with
graph type `"scalefree"`, source clustering `"clustered"` and target
clustering `"unclustered"`, the encoder is trained on the source graph of
the `src` configuration, but the graph the transfer score is evaluated on
is `GRAPHS["scalefree"]["clustered"]["target"]` — selected by the `src`
key — and differs from the graph of the target clustering configuration
that the claim designates. -/
theorem C1_target_graph_selected_by_src_key :
    do_run_src_graph "scalefree" "clustered" =
      some "powerlaw-clustered-100-0.edgelist" ∧
    do_run_target_graph "scalefree" "clustered" "unclustered" =
      some "powerlaw-clustered-100-1.edgelist" ∧
    do_run_target_graph "scalefree" "clustered" "unclustered" ≠
      GRAPHS "scalefree" "unclustered" "target" :=
  ⟨rfl, rfl, by decide⟩

/-- C2: `gtl.training.train` dispatches to a trainer for exactly the
three model names `"graphsage"`, `"egi"` and `"triangle"`, and for every
other model string it raises `ValueError` without calling any trainer. -/
theorem C2_train_dispatch (model : String) :
    (model ∈ ["graphsage", "egi", "triangle"] ↔
      ∃ c, train model = Except.ok c) ∧
    (model ∉ ["graphsage", "egi", "triangle"] →
      train model =
        Except.error (TrainError.valueError ("No such model: " ++ model))) := by
  by_cases h1 : model = "graphsage"
  · subst h1
    exact ⟨⟨fun _ => ⟨TrainerCall.graphsage_encoder, rfl⟩, fun _ => by decide⟩,
      fun h => absurd (by decide) h⟩
  by_cases h2 : model = "egi"
  · subst h2
    exact ⟨⟨fun _ => ⟨TrainerCall.egi_encoder "egi", rfl⟩, fun _ => by decide⟩,
      fun h => absurd (by decide) h⟩
  by_cases h3 : model = "triangle"
  · subst h3
    exact ⟨⟨fun _ => ⟨TrainerCall.egi_encoder "triangle", rfl⟩, fun _ => by decide⟩,
      fun h => absurd (by decide) h⟩
  have herr : train model =
      Except.error (TrainError.valueError ("No such model: " ++ model)) := by
    simp [train, model_functions, List.lookup, beq_eq_false_iff_ne.mpr h1,
      beq_eq_false_iff_ne.mpr h2, beq_eq_false_iff_ne.mpr h3]
  constructor
  · constructor
    · intro hm
      simp [h1, h2, h3] at hm
    · rintro ⟨c, hc⟩
      rw [herr] at hc
      exact absurd hc (by simp)
  · intro _
    exact herr

/-- C2 witness: the unknown model name `"gcn"` raises `ValueError`. -/
theorem C2_train_dispatch_witness :
    train "gcn" =
      Except.error (TrainError.valueError ("No such model: " ++ "gcn")) :=
  (C2_train_dispatch "gcn").2 (by decide)

/-- C3: the averaged sweep metric of `sweep_airport.train`
(`sum(results) / len(results)`) and the one of
`sweep_triangle_detection.sweep_runner` (a running accumulator divided by
the configured run count) are the same function of the per-run accuracy
sequence, and both equal the arithmetic mean of the `n` values. -/
theorem C3_sweep_averages_agree (n : Nat) (acc : Nat → ℚ) :
    avg_classification_accuracy n acc = avg_target_accuracy n acc ∧
    avg_classification_accuracy n acc = ((List.range n).map acc).sum / n ∧
    avg_target_accuracy n acc = ((List.range n).map acc).sum / n := by
  have h : triangle_accumulator n acc = ((List.range n).map acc).sum := by
    simpa using foldl_add_eq_sum acc (List.range n) 0
  refine ⟨?_, ?_, ?_⟩ <;>
    simp [avg_classification_accuracy, avg_target_accuracy, airport_results, h]

/-- C4: `_load_edgelist(path)` exits with status 1, printing a message
naming the path, for every path that is not an existing file; for every
existing file it returns the DGL graph built from the networkx graph read
from the file, without exiting. -/
theorem C4_load_edgelist (fs : FS) (path : String) :
    (fs.is_file path = false →
      load_edgelist fs path = LoadResult.exited 1
        ("File " ++ path ++
          " does not exist - generate the dataset before running this script!")) ∧
    (fs.is_file path = true →
      load_edgelist fs path =
        LoadResult.loaded (from_networkx (fs.read_edgelist path))) := by
  constructor
  · intro h
    simp [load_edgelist, h]
  · intro h
    simp [load_edgelist, h]

/-- C4 witness: on a filesystem holding only `graph.edgelist`, loading a
missing path exits with status 1 and loading the existing path returns
the graph. -/
theorem C4_load_edgelist_witness :
    load_edgelist fs_example "missing.edgelist" = LoadResult.exited 1
      ("File " ++ "missing.edgelist" ++
        " does not exist - generate the dataset before running this script!") ∧
    load_edgelist fs_example "graph.edgelist" =
      LoadResult.loaded (from_networkx (fs_example.read_edgelist "graph.edgelist")) :=
  ⟨(C4_load_edgelist fs_example "missing.edgelist").1 (by decide),
   (C4_load_edgelist fs_example "graph.edgelist").2 (by decide)⟩

/-- C5: every run of `_do_run` writes exactly two accuracy results to the
wandb summary: the validation score of the classifier fitted on the
train/validation split of the source-graph dataset under
`"source-accuracy"`, then the one of the target-graph dataset under
`"target-accuracy"`. -/
theorem C5_do_run_summary_writes (o : SGDOracle) (sp_src sp_target : SklearnSplit)
    (src_eval target_eval : EvalData) :
    (do_run_summary o sp_src sp_target src_eval target_eval).length = 2 ∧
    (do_run_summary o sp_src sp_target src_eval target_eval).map Prod.fst =
      ["source-accuracy", "target-accuracy"] ∧
    (do_run_summary o sp_src sp_target src_eval target_eval).lookup
      "source-accuracy" = some (evaluate_phase o sp_src src_eval) ∧
    (do_run_summary o sp_src sp_target src_eval target_eval).lookup
      "target-accuracy" = some (evaluate_phase o sp_target target_eval) :=
  ⟨rfl, rfl, rfl, rfl⟩

/-- C6: for every shuffle of the trial list (any permutation of
`itertools.product(MODELS, GRAPH_TYPES)`), the runs `main` executes are
exactly the product of the two models, the two graph types and both
ordered pairs of distinct clustering settings, each with run indices
`0..4` — 40 pairwise distinct runs in total — and the wandb event trace
wraps each run in its own init/finish pair. -/
theorem C6_main_run_grid (trials : List (String × String)) (c : RunConfig)
    (h : trials.Perm trialsProduct) :
    (runsOfTrials trials).length = 40 ∧
    (runsOfTrials trials).Nodup ∧
    (c ∈ runsOfTrials trials ↔
      (c.model ∈ MODELS ∧ c.graph_type ∈ GRAPH_TYPES ∧
       c.src ∈ CLUSTERINGS ∧ c.target ∈ CLUSTERINGS ∧ c.src ≠ c.target ∧
       c.run_index < N_RUNS)) ∧
    mainEvents trials =
      (runsOfTrials trials).flatMap
        (fun r => [WandbEvent.init r, WandbEvent.do_run r, WandbEvent.finish]) := by
  have hp : (runsOfTrials trials).Perm (runsOfTrials trialsProduct) :=
    List.Perm.flatMap_right _ h
  refine ⟨?_, ?_, ?_, ?_⟩
  · rw [hp.length_eq]
    rfl
  · rw [hp.nodup_iff]
    decide
  · rw [hp.mem_iff, mem_runsOfTrials]
    constructor
    · rintro ⟨mt, hmt, st, hst, i, hi, rfl⟩
      have h1 := (mem_trialsProduct mt).1 hmt
      have h2 := (mem_perms2 st).1 hst
      exact ⟨h1.1, h1.2, h2.1, h2.2.1, h2.2.2, hi⟩
    · rintro ⟨h1, h2, h3, h4, h5, h6⟩
      refine ⟨(c.model, c.graph_type), (mem_trialsProduct _).2 ⟨h1, h2⟩,
        (c.src, c.target), (mem_perms2 _).2 ⟨h3, h4, h5⟩, c.run_index, h6, ?_⟩
      cases c
      rfl
  · simp [mainEvents, runsOfTrials, List.flatMap_assoc, List.flatMap_map]

/-- C6 witness: with the unshuffled trial list itself, the loop nest
produces 40 runs. -/
theorem C6_main_run_grid_witness : (runsOfTrials trialsProduct).length = 40 :=
  (C6_main_run_grid trialsProduct
    ⟨"egi", "scalefree", "clustered", "unclustered", 0⟩
    (List.Perm.refl trialsProduct)).1

/-- C7: both sweep scripts accept a model argument only from
`{"egi", "triangle", "graphsage"}`; for every other value the argparse
choices check fails, main stops with the parse error, and no sweep is
created or joined. -/
theorem C7_model_argument_choices (ws : SweepConfig → String)
    (date m : String) (sid : Option String) :
    (m ∉ model_choices →
      sweep_airport_main ws date m =
        Except.error ("argument model: invalid choice: " ++ m) ∧
      sweep_triangle_main ws date m sid =
        Except.error ("argument model: invalid choice: " ++ m)) ∧
    (m ∈ model_choices →
      (∃ r, sweep_airport_main ws date m = Except.ok r) ∧
      (∃ r, sweep_triangle_main ws date m sid = Except.ok r)) := by
  constructor
  · intro h
    simp [sweep_airport_main, sweep_triangle_main, parse_model_arg, h]
  · intro h
    cases sid <;>
      simp [sweep_airport_main, sweep_triangle_main, parse_model_arg, h]

/-- C7 witness: the model value `"gcn"` makes argument parsing of both
scripts fail, with no sweep action. -/
theorem C7_model_argument_choices_witness :
    sweep_airport_main (fun _ => "sweep-0") "d" "gcn" =
      Except.error ("argument model: invalid choice: " ++ "gcn") ∧
    sweep_triangle_main (fun _ => "sweep-0") "d" "gcn" none =
      Except.error ("argument model: invalid choice: " ++ "gcn") :=
  (C7_model_argument_choices (fun _ => "sweep-0") "d" "gcn" none).1 (by decide)

/-- C8: provided the negative sampler returns the requested
`g.num_edges()` pairs and the two `randperm` draws are permutations, the
label vector assembled before the train/validation split has length
`2 * g.num_edges()` and is class-balanced — exactly `g.num_edges()` ones
and `g.num_edges()` zeros — both before and after the shuffle
permutation. -/
theorem C8_labels_balanced (d : EvalData)
    (hu : d.neg_us.length = d.g.num_edges)
    (hv : d.neg_vs.length = d.g.num_edges)
    (hes : d.edge_shuffle.Perm (List.range d.g.num_edges))
    (hfs : d.final_shuffle.Perm (List.range (2 * d.g.num_edges))) :
    (assembled_values d).length = 2 * d.g.num_edges ∧
    (assembled_values d).count 1 = d.g.num_edges ∧
    (assembled_values d).count 0 = d.g.num_edges ∧
    (shuffled_values d).length = 2 * d.g.num_edges ∧
    (shuffled_values d).count 1 = d.g.num_edges ∧
    (shuffled_values d).count 0 = d.g.num_edges := by
  have hlen_pos : (positive_edges d).length = d.g.num_edges := by
    have h1 : d.edge_shuffle.length = d.g.num_edges := by
      simpa using hes.length_eq
    simp [positive_edges, applyPerm, h1, DGLGraph.num_edges]
  have hlen_neg : (negative_edges d).length = d.g.num_edges := by
    simp [negative_edges, hu, hv]
  have hav_len : (assembled_values d).length = 2 * d.g.num_edges := by
    simp [assembled_values, hlen_pos, hlen_neg, two_mul]
  have hav_c1 : (assembled_values d).count 1 = d.g.num_edges := by
    simp [assembled_values, hlen_pos, hlen_neg, List.count_append,
      List.count_replicate]
  have hav_c0 : (assembled_values d).count 0 = d.g.num_edges := by
    simp [assembled_values, hlen_pos, hlen_neg, List.count_append,
      List.count_replicate]
  have hperm : (shuffled_values d).Perm (assembled_values d) := by
    apply applyPerm_perm
    rw [hav_len]
    exact hfs
  exact ⟨hav_len, hav_c1, hav_c0, hperm.length_eq.trans hav_len,
    (hperm.count_eq 1).trans hav_c1, (hperm.count_eq 0).trans hav_c0⟩

/-- C8 witness: on the concrete one-edge evaluation phase, the label
vector has two entries, one of each class, before and after the
shuffle. -/
theorem C8_labels_balanced_witness :
    (assembled_values c8_example).length = 2 * c8_example.g.num_edges ∧
    (assembled_values c8_example).count 1 = c8_example.g.num_edges ∧
    (assembled_values c8_example).count 0 = c8_example.g.num_edges ∧
    (shuffled_values c8_example).length = 2 * c8_example.g.num_edges ∧
    (shuffled_values c8_example).count 1 = c8_example.g.num_edges ∧
    (shuffled_values c8_example).count 0 = c8_example.g.num_edges :=
  C8_labels_balanced c8_example (by decide) (by decide) (by decide) (by decide)

/-- C9: edge embeddings are symmetric in the endpoints of the edge: the
element-wise product in `_get_edge_embedding` is commutative, and the
positive and negative edge-embedding lists built in `_do_run` are
unchanged when every pair of endpoints is swapped. -/
theorem C9_edge_embedding_symmetric :
    (∀ (emb : Nat → List ℚ) (a b : Nat),
      get_edge_embedding emb a b = get_edge_embedding emb b a) ∧
    (∀ d : EvalData, positive_edges (swap_endpoints d) = positive_edges d) ∧
    (∀ d : EvalData, negative_edges (swap_negatives d) = negative_edges d) := by
  refine ⟨fun emb a b => by simp [get_edge_embedding, vecMul_comm], ?_, ?_⟩
  · intro d
    simp only [positive_edges, swap_endpoints, List.map_map]
    rw [show (Prod.fst ∘ Prod.swap : Nat × Nat → Nat) = Prod.snd from rfl]
    rw [show (Prod.snd ∘ Prod.swap : Nat × Nat → Nat) = Prod.fst from rfl]
    rw [List.zipWith_comm]
    simp [vecMul_comm]
  · intro d
    simp only [negative_edges, swap_negatives]
    rw [List.zipWith_comm]
    simp [vecMul_comm]

/-- C10: when a sweep id is supplied to `sweep_triangle_detection.main`,
the sweep config is left unchanged — no name entry and no model parameter
is added — no new sweep is created, and the agent is attached to the
supplied id; only when the sweep id is absent is the config mutated and a
new sweep registered. -/
theorem C10_sweep_id_frame (ws : SweepConfig → String) (date model s : String)
    (h : model ∈ model_choices) :
    sweep_triangle_main ws date model (some s) =
      Except.ok (sweep_config_triangle, [SweepAction.attach_agent s]) ∧
    sweep_config_triangle.name = none ∧
    "model" ∉ sweep_config_triangle.parameters ∧
    sweep_triangle_main ws date model none =
      Except.ok (add_model_to_config sweep_config_triangle model date,
        [SweepAction.create_sweep (add_model_to_config sweep_config_triangle model date),
         SweepAction.attach_agent
           (ws (add_model_to_config sweep_config_triangle model date))]) ∧
    (add_model_to_config sweep_config_triangle model date).name =
      some (model ++ " (" ++ date ++ ")") ∧
    "model" ∈ (add_model_to_config sweep_config_triangle model date).parameters := by
  refine ⟨?_, by decide, by decide, ?_, rfl, ?_⟩
  · simp [sweep_triangle_main, parse_model_arg, h]
  · simp [sweep_triangle_main, parse_model_arg, h]
  · simp [add_model_to_config]

/-- C10 witness: with the model `"egi"` and the supplied sweep id
`"abc"`, the config is untouched and the only action is attaching the
agent to `"abc"`. -/
theorem C10_sweep_id_frame_witness :
    sweep_triangle_main (fun _ => "sweep-0") "d" "egi" (some "abc") =
      Except.ok (sweep_config_triangle, [SweepAction.attach_agent "abc"]) :=
  (C10_sweep_id_frame (fun _ => "sweep-0") "d" "egi" "abc" (by decide)).1

end GTLSpec
